import Mathlib

/-!
Verification of the CadQueryBridge parametric bridge generator.

This file shallowly embeds the configuration sampler and the derived-quantity
calculators of the repository (src/param_gen.py, src/utils.py,
src/BridgeModelGeneration/bridge_model.py, src/geometry/bridge_model.py) in
Lean 4 and proves or refutes the specification claims about them.

Embedding conventions:
- Python floats are modelled as exact rationals (`ℚ`); Python's `round(x, n)`
  (round-half-to-even on the decimal value) is modelled by `rne`/`round1`/`round2`
  below, exact half-even rounding on `ℚ`.
- Python ints are `ℤ`, string fields are `String`.
- Code that can raise returns `Except Err _`. The spec's canonical error name
  `InvalidConfigurationError` covers the source's `KeyError` (unknown key in the
  `BRIDGE_SPECS` table) and `ValueError` ("Invalid bridge type" in `make_deck`);
  the uninitialized `num_of_cells` path is `Err.unboundLocal`.
- The standard-library pseudo-random generator `random.Random(seed)` is not part
  of the repository; it is modelled from the spec as a seed-indexed deterministic
  stream of rationals in [0,1), one value consumed per primitive draw.
-/

set_option maxRecDepth 16000

/-- Error outcomes of the embedded operations. `invalidConfiguration` is the
spec's canonical name for the source's `KeyError`/`ValueError` raises on an
unsupported bridge type; `unboundLocal` models Python's `UnboundLocalError`
for a variable read on a path where no branch assigned it. -/
inductive Err
| invalidConfiguration (msg : String)
| unboundLocal (varName : String)
deriving DecidableEq

deriving instance DecidableEq for Except

/-- Python's `round` to an integer: round half to even (banker's rounding),
exact on rationals. -/
def rne (q : ℚ) : ℤ :=
  if q - (⌊q⌋ : ℚ) < 1/2 then ⌊q⌋
  else if 1/2 < q - (⌊q⌋ : ℚ) then ⌊q⌋ + 1
  else if ⌊q⌋ % 2 = 0 then ⌊q⌋ else ⌊q⌋ + 1

/-- Python's `round(x, 1)` on the rational model. -/
def round1 (q : ℚ) : ℚ := ((rne (q * 10) : ℤ) : ℚ) / 10

/-- Python's `round(x, 2)` on the rational model. -/
def round2 (q : ℚ) : ℚ := ((rne (q * 100) : ℤ) : ℚ) / 100

theorem rne_intCast (m : ℤ) : rne (m : ℚ) = m := by
  simp [rne]

theorem abs_rne_sub (q : ℚ) : |((rne q : ℤ) : ℚ) - q| ≤ 1/2 := by
  have h1 : ((⌊q⌋ : ℤ) : ℚ) ≤ q := Int.floor_le q
  have h2 : q < (⌊q⌋ : ℚ) + 1 := Int.lt_floor_add_one q
  unfold rne
  split_ifs with ha hb hc
  · rw [abs_le]; constructor <;> simp <;> linarith
  · rw [abs_le]; constructor <;> push_cast <;> linarith
  · rw [abs_le]; constructor <;> simp <;> linarith
  · rw [abs_le]; constructor <;> push_cast <;> linarith

theorem abs_round1_sub (q : ℚ) : |round1 q - q| ≤ 1/20 := by
  have h : round1 q - q = (((rne (q * 10) : ℤ) : ℚ) - q * 10) / 10 := by
    rw [round1]; ring
  rw [h, abs_div]
  have h10 : |(10 : ℚ)| = 10 := by norm_num
  rw [h10]
  have := abs_rne_sub (q * 10)
  linarith

theorem round1_le (q : ℚ) : round1 q ≤ q + 1/20 := by
  have h := abs_round1_sub q
  rw [abs_le] at h
  linarith [h.2]

theorem le_round1 (q : ℚ) : q - 1/20 ≤ round1 q := by
  have h := abs_round1_sub q
  rw [abs_le] at h
  linarith [h.1]

theorem rne_le (q : ℚ) : ((rne q : ℤ) : ℚ) ≤ q + 1/2 := by
  have h := abs_rne_sub q
  rw [abs_le] at h
  linarith [h.2]

theorem le_rne (q : ℚ) : q - 1/2 ≤ ((rne q : ℤ) : ℚ) := by
  have h := abs_rne_sub q
  rw [abs_le] at h
  linarith [h.1]

/-- A rational that is an exact multiple of one tenth (every `round1` output). -/
def isTenth (q : ℚ) : Prop := ∃ m : ℤ, q = (m : ℚ) / 10

theorem round1_isTenth (q : ℚ) : isTenth (round1 q) := ⟨rne (q * 10), rfl⟩

theorem isTenth_add {a b : ℚ} (ha : isTenth a) (hb : isTenth b) : isTenth (a + b) := by
  obtain ⟨m, hm⟩ := ha
  obtain ⟨k, hk⟩ := hb
  exact ⟨m + k, by rw [hm, hk]; push_cast; ring⟩

theorem round1_of_isTenth {q : ℚ} (h : isTenth q) : round1 q = q := by
  obtain ⟨m, hm⟩ := h
  have h10 : ((m : ℚ) / 10) * 10 = (m : ℚ) := by ring
  rw [hm, round1, h10, rne_intCast]

/-- Embeds `compute_girder_spacing` from `src/utils.py`:
`num = max(2, round(width/min_spacing)); return num, round(width/num, 1)`. -/
def compute_girder_spacing (width_m min_spacing_m : ℚ) : ℤ × ℚ :=
  let num_of_girders := max 2 (rne (width_m / min_spacing_m))
  let spacing := width_m / ((num_of_girders : ℤ) : ℚ)
  (num_of_girders, round1 spacing)

/-- Embeds `BridgeModel.compute_tee_girder_spacing` from
`src/BridgeModelGeneration/bridge_model.py`, textually the same computation as
`compute_girder_spacing` in `src/utils.py`. -/
def compute_tee_girder_spacing (width_m min_spacing_m : ℚ) : ℤ × ℚ :=
  let num_of_girders := max 2 (rne (width_m / min_spacing_m))
  let spacing := width_m / ((num_of_girders : ℤ) : ℚ)
  (num_of_girders, round1 spacing)

/-- Embeds `BridgeModel.compute_box_girder_spacing` from
`src/BridgeModelGeneration/bridge_model.py`. The method reads
`self.config.depth_of_girder` and `self.config.width_m`; those two fields are
taken as arguments. When `ratio > 1/5` neither branch assigns `num_of_cells`
and the subsequent read raises `UnboundLocalError`. -/
def compute_box_girder_spacing (width_m depth_of_girder : ℚ) : Except Err (ℤ × ℚ) :=
  let ratio := depth_of_girder / width_m
  if 1/6 ≤ ratio ∧ ratio ≤ 1/5 then Except.ok (1, (width_m - 4) / 1)
  else if ratio < 1/6 then Except.ok (2, (width_m - 4) / 2)
  else Except.error (Err.unboundLocal "num_of_cells")

/-- Helper: when the imposed floor of 2 girders is exceeded, the count is the
half-even rounding of `width/min_spacing`. -/
theorem girder_count_eq_rne {w m : ℚ} (h : 2 < (compute_girder_spacing w m).1) :
    (compute_girder_spacing w m).1 = rne (w / m) := by
  have hmax : (compute_girder_spacing w m).1 = max 2 (rne (w / m)) := rfl
  rcases max_cases 2 (rne (w / m)) with ⟨he, _⟩ | ⟨he, _⟩
  · rw [hmax, he] at h; exact absurd h (lt_irrefl 2)
  · rw [hmax, he]

/-- C2: for positive width and depth with ratio `depth/width ≤ 1/5`,
`compute_box_girder_spacing` returns 1 cell on ratio in `[1/6, 1/5]`, 2 cells
on ratio below `1/6`, with cell width `(width - 4) / num_cells`; ratio 0.18
(width 100, depth 18) gives 1 cell and ratio 0.1 (width 100, depth 10) gives
2 cells. -/
theorem C2_box_girder_cell_layout :
    (∀ width depth : ℚ, 0 < width → 0 < depth →
      (1/6 ≤ depth / width ∧ depth / width ≤ 1/5 →
        compute_box_girder_spacing width depth = Except.ok (1, (width - 4) / 1)) ∧
      (depth / width < 1/6 →
        compute_box_girder_spacing width depth = Except.ok (2, (width - 4) / 2))) ∧
    compute_box_girder_spacing 100 18 = Except.ok (1, 96) ∧
    compute_box_girder_spacing 100 10 = Except.ok (2, 48) := by
  refine ⟨fun w d hw hd => ⟨fun h => ?_, fun h => ?_⟩, by with_unfolding_all decide,
    by with_unfolding_all decide⟩
  · rw [compute_box_girder_spacing, if_pos h]
  · have h1 : ¬(1/6 ≤ d / w ∧ d / w ≤ 1/5) := fun hc => absurd h (not_lt.mpr hc.1)
    rw [compute_box_girder_spacing, if_neg h1, if_pos h]

/-- Witness for C2 at width 100, depth 18 (ratio 0.18) and width 100, depth 10
(ratio 0.1). -/
theorem C2_box_girder_cell_layout_witness :
    compute_box_girder_spacing 100 18 = Except.ok (1, (100 - 4) / 1) ∧
    compute_box_girder_spacing 100 10 = Except.ok (2, (100 - 4) / 2) :=
  ⟨(C2_box_girder_cell_layout.1 100 18 (by norm_num) (by norm_num)).1 (by norm_num),
   (C2_box_girder_cell_layout.1 100 10 (by norm_num) (by norm_num)).2 (by norm_num)⟩

/-- C3: for positive width and depth, `compute_box_girder_spacing` hits the
uninitialized-variable path (no branch assigns `num_of_cells`) exactly when
`depth/width > 1/5`. -/
theorem C3_ratio_above_one_fifth_unhandled :
    ∀ width depth : ℚ, 0 < width → 0 < depth →
      (1/5 < depth / width ↔
        compute_box_girder_spacing width depth =
          Except.error (Err.unboundLocal "num_of_cells")) := by
  intro w d hw hd
  constructor
  · intro h
    have h1 : ¬(1/6 ≤ d / w ∧ d / w ≤ 1/5) := fun hc => absurd h (not_lt.mpr hc.2)
    have h2 : ¬(d / w < 1/6) := not_lt.mpr (le_of_lt (lt_of_le_of_lt (by norm_num) h))
    rw [compute_box_girder_spacing, if_neg h1, if_neg h2]
  · intro h
    by_contra hn
    push_neg at hn
    rcases le_or_lt (1/6) (d / w) with h6 | h6
    · rw [compute_box_girder_spacing, if_pos ⟨h6, hn⟩] at h
      exact Except.noConfusion h
    · have h1 : ¬(1/6 ≤ d / w ∧ d / w ≤ 1/5) := fun hc => absurd h6 (not_lt.mpr hc.1)
      rw [compute_box_girder_spacing, if_neg h1, if_pos h6] at h
      exact Except.noConfusion h

/-- Witness for C3 at width 10, depth 3 (ratio 0.3 > 1/5). -/
theorem C3_ratio_above_one_fifth_unhandled_witness :
    compute_box_girder_spacing 10 3 = Except.error (Err.unboundLocal "num_of_cells") :=
  (C3_ratio_above_one_fifth_unhandled 10 3 (by norm_num) (by norm_num)).mp (by norm_num)

/-- C4: `compute_girder_spacing` returns `count = max 2 (round(width/min_spacing))`
and `spacing = round(width/count, 1)`, so `count ≥ 2` always; the method
`compute_tee_girder_spacing` computes the same pair; the examples
`(8.0, 3.5) = (2, 4.0)` and `(10.5, 3.5) = (3, 3.5)` hold. -/
theorem C4_girder_spacing :
    (∀ w m : ℚ, 0 < w → 0 < m →
      (compute_girder_spacing w m).1 = max 2 (rne (w / m)) ∧
      (compute_girder_spacing w m).2 = round1 (w / ((max 2 (rne (w / m)) : ℤ) : ℚ)) ∧
      2 ≤ (compute_girder_spacing w m).1) ∧
    (∀ w m : ℚ, compute_tee_girder_spacing w m = compute_girder_spacing w m) ∧
    compute_girder_spacing 8 (7/2) = (2, 4) ∧
    compute_girder_spacing (21/2) (7/2) = (3, 7/2) := by
  refine ⟨fun w m hw hm => ⟨rfl, rfl, le_max_left _ _⟩, fun w m => rfl,
    by with_unfolding_all decide, by with_unfolding_all decide⟩

/-- Witness for C4 at width 8, min spacing 3.5. -/
theorem C4_girder_spacing_witness :
    (compute_girder_spacing 8 (7/2)).1 = max 2 (rne (8 / (7/2))) ∧
    2 ≤ (compute_girder_spacing 8 (7/2)).1 :=
  ⟨(C4_girder_spacing.1 8 (7/2) (by norm_num) (by norm_num)).1,
   (C4_girder_spacing.1 8 (7/2) (by norm_num) (by norm_num)).2.2⟩

/-- Counterexample to C5: at width 11.9, min spacing 3.5 the returned count is
3 (not the imposed floor 2) yet the returned spacing 4.0 exceeds 3.5. -/
theorem C5_spacing_bound_cex :
    compute_girder_spacing (119/10) (7/2) = (3, 4) ∧
    ¬((compute_girder_spacing (119/10) (7/2)).2 ≤ 7/2) := by
  with_unfolding_all decide

/-- C5 amended: when the returned count exceeds the imposed floor of 2, the
returned spacing is at most `min_spacing * (1 + 1/(2*count)) + 0.05` (the
half-unit slack of nearest-integer rounding plus the final one-decimal
rounding); it is not in general at most `min_spacing`. -/
theorem C5_spacing_bound_amended :
    ∀ w m : ℚ, 0 < w → 0 < m → 2 < (compute_girder_spacing w m).1 →
      (compute_girder_spacing w m).2 ≤
        m * (1 + 1 / (2 * ((compute_girder_spacing w m).1 : ℚ))) + 1/20 := by
  intro w m hw hm hcount
  have hrne := girder_count_eq_rne hcount
  set n : ℤ := (compute_girder_spacing w m).1 with hn
  have hn0 : (0:ℚ) < (n : ℚ) := by
    have : (2:ℤ) < n := hcount
    exact_mod_cast lt_trans (by norm_num) this
  have hub : w / m ≤ (n : ℚ) + 1/2 := by
    have := le_rne (w / m)
    rw [← hrne] at this
    linarith
  have hwle : w ≤ m * ((n : ℚ) + 1/2) := by
    rw [div_le_iff₀ hm] at hub
    linarith [hub]
  have hspacing : (compute_girder_spacing w m).2 = round1 (w / (n : ℚ)) := rfl
  have hdiv : w / (n : ℚ) ≤ m * (1 + 1 / (2 * (n : ℚ))) := by
    rw [div_le_iff₀ hn0]
    have hexp : m * (1 + 1 / (2 * (n : ℚ))) * (n : ℚ) = m * ((n : ℚ) + 1/2) := by
      field_simp
      ring
    rw [hexp]
    exact hwle
  calc (compute_girder_spacing w m).2 = round1 (w / (n : ℚ)) := hspacing
    _ ≤ w / (n : ℚ) + 1/20 := round1_le _
    _ ≤ m * (1 + 1 / (2 * (n : ℚ))) + 1/20 := by linarith

/-- Witness for the amended C5 at width 11.9, min spacing 3.5: count 3,
spacing 4.0 ≤ 3.5·(1 + 1/6) + 0.05. -/
theorem C5_spacing_bound_amended_witness :
    (compute_girder_spacing (119/10) (7/2)).2 ≤
      7/2 * (1 + 1 / (2 * ((compute_girder_spacing (119/10) (7/2)).1 : ℚ))) + 1/20 :=
  C5_spacing_bound_amended (119/10) (7/2) (by norm_num) (by norm_num)
    (by with_unfolding_all decide)

/-- Embeds the accumulation loop of `compute_pier_positions_along_length`
(`src/BridgeModelGeneration/bridge_model.py`): `pos += span;
pier_positions.append(round(pos, 1))` over the given span list, with `pos`
kept unrounded between iterations. -/
def pier_positions_loop (pos : ℚ) : List ℚ → List ℚ
  | [] => []
  | s :: rest => round1 (pos + s) :: pier_positions_loop (pos + s) rest

/-- Embeds `BridgeModel.compute_pier_positions_along_length` from
`src/BridgeModelGeneration/bridge_model.py`; the method
`BridgeModel.compute_pier_positions` in `src/geometry/bridge_model.py` is the
same computation. The method reads `self.config.total_length_m` and
`self.config.num_spans`; those two fields are taken as arguments. -/
def compute_pier_positions_along_length (total_length_m : ℚ) (num_spans : ℤ) : List ℚ :=
  let interior_span_length := round1 (total_length_m / ((num_spans : ℚ) - 6/10))
  let end_span_length := round1 (interior_span_length * (7/10))
  let spans := [end_span_length] ++
    List.replicate (num_spans - 2).toNat interior_span_length ++ [end_span_length]
  (pier_positions_loop 0 spans.dropLast).map (fun p => round1 (p - total_length_m / 2))

theorem pier_positions_loop_length (spans : List ℚ) :
    ∀ pos, (pier_positions_loop pos spans).length = spans.length := by
  induction spans with
  | nil => intro pos; rfl
  | cons s rest ih =>
    intro pos
    show (round1 (pos + s) :: pier_positions_loop (pos + s) rest).length = rest.length + 1
    rw [List.length_cons, ih]

theorem pier_positions_loop_cons_tenth {pos s : ℚ} (rest : List ℚ)
    (hpos : isTenth pos) (hs : isTenth s) :
    pier_positions_loop pos (s :: rest) = (pos + s) :: pier_positions_loop (pos + s) rest := by
  show round1 (pos + s) :: pier_positions_loop (pos + s) rest =
    (pos + s) :: pier_positions_loop (pos + s) rest
  rw [round1_of_isTenth (isTenth_add hpos hs)]

/-- The normalised pier positions are strictly increasing provided every span
after the first is an exact tenth no smaller than 0.2: each rounding moves a
value by at most 0.05, so consecutive positions differ by at least
`span - 0.1 > 0`. -/
theorem pier_positions_loop_chain (L : ℚ) (spans : List ℚ) :
    ∀ pos : ℚ, isTenth pos → (∀ s ∈ spans, isTenth s) → (∀ s ∈ spans.tail, 1/5 ≤ s) →
      List.Chain' (· < ·)
        ((pier_positions_loop pos spans).map (fun p => round1 (p - L / 2))) := by
  induction spans with
  | nil => intro pos _ _ _; simp [pier_positions_loop]
  | cons s rest ih =>
    intro pos hpos hall htail
    have hs : isTenth s := hall s (List.mem_cons_self s rest)
    rw [pier_positions_loop_cons_tenth rest hpos hs, List.map_cons, List.chain'_cons']
    refine ⟨?_, ih (pos + s) (isTenth_add hpos hs)
      (fun t ht => hall t (List.mem_cons_of_mem s ht))
      (fun t ht => htail t (by
        cases rest with
        | nil => exact absurd ht (List.not_mem_nil t)
        | cons s2 rest2 => exact List.mem_cons_of_mem s2 ht))⟩
    intro b hb
    cases rest with
    | nil => simp [pier_positions_loop] at hb
    | cons s2 rest2 =>
      have hs2 : isTenth s2 := hall s2 (List.mem_cons_of_mem s (List.mem_cons_self s2 rest2))
      rw [pier_positions_loop_cons_tenth rest2 (isTenth_add hpos hs) hs2,
        List.map_cons] at hb
      simp only [List.head?_cons, Option.mem_def, Option.some.injEq] at hb
      have hs2' : 1/5 ≤ s2 := htail s2 (List.mem_cons_self s2 rest2)
      have h1 := round1_le (pos + s - L/2)
      have h2 := le_round1 (pos + s + s2 - L/2)
      rw [← hb]
      linarith

/-- C1 amended: `compute_pier_positions_along_length` follows the stated
algorithm; for every `total_length > 0` and `num_spans ≥ 2` the result has
length `num_spans - 1`, and it is strictly increasing provided the rounded
interior span length is at least 0.2 (one-decimal rounding can merge
positions when the interior span rounds to 0 or 0.1). At (150.0, 5) the four
returned positions are strictly increasing and the gap from the deck start
`-total_length/2` to the first pier, divided by the gap between the first two
piers, is within 1e-2 of 0.7; the consecutive gaps themselves are the equal
interior spans. -/
theorem C1_pier_positions :
    (∀ (L : ℚ) (n : ℤ), 0 < L → 2 ≤ n →
      (((compute_pier_positions_along_length L n).length : ℤ) = n - 1 ∧
       (1/5 ≤ round1 (L / ((n : ℚ) - 6/10)) →
         List.Pairwise (· < ·) (compute_pier_positions_along_length L n)))) ∧
    compute_pier_positions_along_length 150 5 = [-511/10, -17, 171/10, 256/5] ∧
    |((compute_pier_positions_along_length 150 5).getD 0 0 + 150 / 2) /
      ((compute_pier_positions_along_length 150 5).getD 1 0 -
       (compute_pier_positions_along_length 150 5).getD 0 0) - 7/10| ≤ 1/100 := by
  refine ⟨fun L n hL hn => ?_, by with_unfolding_all decide, by with_unfolding_all decide⟩
  have hdrop :
      ([round1 (round1 (L / ((n : ℚ) - 6/10)) * (7/10))] ++
        List.replicate (n - 2).toNat (round1 (L / ((n : ℚ) - 6/10))) ++
        [round1 (round1 (L / ((n : ℚ) - 6/10)) * (7/10))]).dropLast =
      [round1 (round1 (L / ((n : ℚ) - 6/10)) * (7/10))] ++
        List.replicate (n - 2).toNat (round1 (L / ((n : ℚ) - 6/10))) := by
    rw [List.dropLast_concat]
  constructor
  · rw [compute_pier_positions_along_length]
    rw [hdrop, List.length_map, pier_positions_loop_length]
    have hm : ((n - 2).toNat : ℤ) = n - 2 := Int.toNat_of_nonneg (by omega)
    simp only [List.length_append, List.length_replicate, List.length_cons, List.length_nil]
    omega
  · intro hint
    rw [compute_pier_positions_along_length, hdrop]
    rw [← List.chain'_iff_pairwise]
    apply pier_positions_loop_chain
    · exact ⟨0, by norm_num⟩
    · intro t ht
      rcases List.mem_append.mp ht with h | h
      · rw [List.mem_singleton.mp h]; exact round1_isTenth _
      · rw [List.eq_of_mem_replicate h]; exact round1_isTenth _
    · intro t ht
      have : ([round1 (round1 (L / ((n : ℚ) - 6/10)) * (7/10))] ++
          List.replicate (n - 2).toNat (round1 (L / ((n : ℚ) - 6/10)))).tail =
          List.replicate (n - 2).toNat (round1 (L / ((n : ℚ) - 6/10))) := rfl
      rw [this] at ht
      rw [List.eq_of_mem_replicate ht]
      exact hint

/-- Witness for the amended C1 at total length 150, 5 spans: 4 positions,
strictly increasing. -/
theorem C1_pier_positions_witness :
    ((compute_pier_positions_along_length 150 5).length : ℤ) = 5 - 1 ∧
    List.Pairwise (· < ·) (compute_pier_positions_along_length 150 5) := by
  have h := C1_pier_positions.1 150 5 (by norm_num) (by norm_num)
  exact ⟨h.1, h.2 (by with_unfolding_all decide)⟩

/-- Counterexample to C1 as stated: at total length 0.1, 3 spans (both in the
claimed domain) the two returned positions coincide, so the list is not
strictly increasing; and at (150.0, 5) the first inter-pier gap divided by the
second inter-pier gap is exactly 1, not within 1e-2 of 0.7. -/
theorem C1_pier_positions_cex :
    ¬ List.Pairwise (· < ·) (compute_pier_positions_along_length (1/10) 3) ∧
    ¬ (|((compute_pier_positions_along_length 150 5).getD 1 0 -
         (compute_pier_positions_along_length 150 5).getD 0 0) /
        ((compute_pier_positions_along_length 150 5).getD 2 0 -
         (compute_pier_positions_along_length 150 5).getD 1 0) - 7/10| ≤ 1/100) := by
  with_unfolding_all decide

/-- C9 amended: for `num_spans < 2` the function performs no validation and
raises nothing: it still returns a (length-1) list of positions; no
`InvalidConfigurationError` (nor any other error) exists on this path in the
source. -/
theorem C9_no_validation_amended :
    ∀ (L : ℚ) (n : ℤ), n ≤ 1 → (compute_pier_positions_along_length L n).length = 1 := by
  intro L n hn
  have hm : (n - 2).toNat = 0 := by omega
  rw [compute_pier_positions_along_length]
  rw [hm]
  rfl

/-- Witness for the amended C9 at total length 150, a single span. -/
theorem C9_no_validation_amended_witness :
    (compute_pier_positions_along_length 150 1).length = 1 :=
  C9_no_validation_amended 150 1 (by norm_num)

/-- Counterexample to C9 as stated: with `num_spans = 1 < 2` the function
returns the list [187.5] rather than failing, and with a negative total
length and 5 spans it likewise returns a 4-element list. -/
theorem C9_no_validation_cex :
    compute_pier_positions_along_length 150 1 = [375/2] ∧
    (compute_pier_positions_along_length (-150) 5).length = 4 := by
  with_unfolding_all decide

/-- Embeds the `BridgeConfig` dataclass as constructed by
`generate_bridge_configs` in `src/param_gen.py` (the field list passed to the
constructor there). -/
structure BridgeConfig where
  bridge_id : String
  bridge_type : String
  span_m : ℚ
  num_spans : ℤ
  total_length_m : ℚ
  width_m : ℚ
  lanes : ℤ
  include_sidewalks : Bool
  depth_of_girder : ℚ
  number_of_piers_per_lane : ℤ
  radius_of_pier : ℚ
  pier_type : String
  pier_cap_type : String
  pier_cross_section : String
deriving DecidableEq

/-- Modelled from the spec: `random.Random(seed)` (CPython's Mersenne
Twister, standard-library code outside this repository) is, per the spec, a
single deterministic pseudo-random stream fully determined by the seed. It is
modelled as a stream of rationals in `[0,1)` together with a counter of how
many draws have been consumed. -/
structure Rng where
  src : ℕ → ℚ
  ctr : ℕ

/-- Modelled from the spec: `rng.uniform(a, b)` consumes one stream value `u`
and returns `a + (b - a) * u`. -/
def Rng.uniform (r : Rng) (a b : ℚ) : ℚ × Rng :=
  (a + (b - a) * r.src r.ctr, ⟨r.src, r.ctr + 1⟩)

/-- Modelled from the spec: `rng.randint(a, b)` consumes one stream value `u`
and returns `a + ⌊u * (b - a + 1)⌋`, an integer in `[a, b]` for `u ∈ [0,1)`. -/
def Rng.randint (r : Rng) (a b : ℤ) : ℤ × Rng :=
  (a + ⌊r.src r.ctr * ((b : ℚ) - (a : ℚ) + 1)⌋, ⟨r.src, r.ctr + 1⟩)

/-- Modelled from the spec: `rng.choice(xs)` consumes one stream value `u` and
returns the element at index `⌊u * len(xs)⌋`. -/
def Rng.choice (r : Rng) (xs : List String) : String × Rng :=
  (xs.getD (⌊r.src r.ctr * (xs.length : ℚ)⌋).toNat "", ⟨r.src, r.ctr + 1⟩)

/-- Embeds the `BRIDGE_SPECS` table of `src/param_gen.py`: per bridge type,
the admissible span range and the girder depth-ratio range. -/
def BRIDGE_SPECS : List (String × ((ℚ × ℚ) × (ℚ × ℚ))) :=
  [("beam_slab", ((12, 18), (6/100, 7/100))),
   ("box_girder", ((15, 37), (5/100, 6/100)))]

/-- Embeds `pick_span` from `src/param_gen.py`. The `BRIDGE_SPECS[bridge_type]`
lookup raises `KeyError` for an unsupported type (the spec's
`InvalidConfigurationError`). Returns `(span_m, num_spans, total_length_m,
depth_of_girder)` rounded as in the source. -/
def pick_span (bridge_type : String) (overhang_m : ℚ) (r : Rng) :
    Except Err ((ℚ × ℤ × ℚ × ℚ) × Rng) :=
  match BRIDGE_SPECS.lookup bridge_type with
  | none => Except.error (Err.invalidConfiguration ("KeyError: " ++ bridge_type))
  | some spec =>
    let ur1 := r.uniform spec.1.1 spec.1.2
    let raw_span := ur1.1
    let ur2 := ur1.2.uniform spec.2.1 spec.2.2
    let depth_of_girder := raw_span * ur2.1
    let nr := ur2.2.randint 2 5
    let num_spans := nr.1
    let total_length := raw_span * (num_spans : ℚ) + 2 * overhang_m
    Except.ok ((round1 raw_span, num_spans, round1 total_length, round1 depth_of_girder), nr.2)

/-- Embeds `pick_deck_width` from `src/param_gen.py`: lane width 3.5 m, hard
shoulder 3.0 m and hard strip 0.5 m each side, sidewalk 1.5 m each side when
included, rounded to 2 decimals. -/
def pick_deck_width (lanes : ℤ) (include_sidewalks : Bool) : ℚ :=
  let lane_width : ℚ := 7/2
  let hard_shoulder : ℚ := 3
  let hard_strip : ℚ := 1/2
  let sidewalk : ℚ := if include_sidewalks then 3/2 else 0
  let paved_width := (lanes : ℚ) * lane_width + 2 * (hard_shoulder + hard_strip)
  round2 (paved_width + 2 * sidewalk)

/-- Embeds `piers_combination` from `src/param_gen.py`: one pier per lane,
radius 0.6 m, pier type restricted by bridge type, cap type `prismatic`,
cross-section drawn from `circular`/`rectangular`. -/
def piers_combination (lanes : ℤ) (r : Rng) (bridge_type : String) :
    (ℤ × ℚ × String × String × String) × Rng :=
  let num_of_piers_per_lane : ℤ := 1
  let radius_of_pier : ℚ := 3/5
  let tr := if bridge_type = "box_girder" then r.choice ["hammer_head"]
            else r.choice ["multicolumn"]
  let cr := tr.2.choice ["prismatic"]
  let xr := cr.2.choice ["circular", "rectangular"]
  ((num_of_piers_per_lane, radius_of_pier, tr.1, cr.1, xr.1), xr.2)

/-- Embeds one iteration of the `for idx in range(1, count+1)` loop of
`generate_bridge_configs` in `src/param_gen.py`. `bridge_type or rng.choice(...)`
follows Python truthiness: both `None` and the empty string fall back to a
random supported type. `include_sidewalks` is the local constant `True` of the
source. -/
def sample_rest (bridge_type_picked : String) (overhang_m : ℚ) (idx : ℕ) (r : Rng) :
    Except Err (BridgeConfig × Rng) :=
  let lr := r.randint 2 5
  let lanes := lr.1
  match pick_span bridge_type_picked overhang_m lr.2 with
  | Except.error e => Except.error e
  | Except.ok (sp, r2) =>
    let width := pick_deck_width lanes true
    let pc := piers_combination lanes r2 bridge_type_picked
    Except.ok (⟨"bridge_" ++ toString idx, bridge_type_picked, sp.1, sp.2.1, sp.2.2.1,
      width, lanes, true, sp.2.2.2, pc.1.1, pc.1.2.1, pc.1.2.2.1, pc.1.2.2.2.1,
      pc.1.2.2.2.2⟩, pc.2)

/-- Continuation of `sample_one` after `bridge_type_picked` is resolved by the
`bridge_type or rng.choice(...)` expression: draws lanes, span data and pier
attributes in the order of the source loop body. -/
def sample_one (bridge_type : Option String) (overhang_m : ℚ) (idx : ℕ) (r : Rng) :
    Except Err (BridgeConfig × Rng) :=
  let btr :=
    match bridge_type with
    | none => r.choice ["beam_slab", "box_girder"]
    | some s => if s = "" then r.choice ["beam_slab", "box_girder"] else (s, r)
  sample_rest btr.1 overhang_m idx btr.2

/-- Embeds the loop of `generate_bridge_configs` in `src/param_gen.py`:
`count` iterations starting at index `idx`, threading the random stream. -/
def sample_loop (bridge_type : Option String) (overhang_m : ℚ) :
    ℕ → ℕ → Rng → Except Err (List BridgeConfig)
  | 0, _, _ => Except.ok []
  | Nat.succ k, idx, r =>
    match sample_one bridge_type overhang_m idx r with
    | Except.error e => Except.error e
    | Except.ok (cfg, r2) =>
      match sample_loop bridge_type overhang_m k (idx + 1) r2 with
      | Except.error e => Except.error e
      | Except.ok rest => Except.ok (cfg :: rest)

/-- Embeds `generate_bridge_configs(count, bridge_type, seed)` from
`src/param_gen.py`: a fresh stream `rng = random.Random(seed)` (modelled by
`mt seed` with draw counter 0), overhang 1.0 m, and `count` sampled configs. -/
def generate_bridge_configs (mt : Option ℤ → ℕ → ℚ) (count : ℕ)
    (bridge_type : Option String) (seed : Option ℤ) : Except Err (List BridgeConfig) :=
  sample_loop bridge_type 1 count 1 ⟨mt seed, 0⟩

/-- Deck layout description: the numeric layout computed by
`make_beam_slab_deck` / `make_box_girder_deck` in
`src/BridgeModelGeneration/bridge_model.py` (counts, spacings and transverse
member positions); the boundary-representation solids themselves are built by
the external CAD kernel, out of scope per the spec. -/
inductive Deck
| beamSlab (num_of_girders : ℤ) (girder_distance : ℚ) (girder_positions : List ℚ)
    (deck_length width deck_thickness depth_of_girder : ℚ)
| boxGirder (num_cells : ℤ) (box_width : ℚ) (box_center_positions : List ℚ)
    (deck_length width depth_of_girder : ℚ)
deriving DecidableEq

/-- Embeds `make_beam_slab_deck`: deck slab `total_length × width × 0.3` with
`num_of_girders` girders at `y = -(dist*(n-1)/2) + dist*i`. -/
def make_beam_slab_deck (c : BridgeConfig) : Deck :=
  let gs := compute_tee_girder_spacing c.width_m (7/2)
  let num_of_girders := gs.1
  let girder_distance := gs.2
  let positions := (List.range num_of_girders.toNat).map
    (fun i => -(girder_distance * ((num_of_girders : ℚ) - 1) / 2) + girder_distance * (i : ℚ))
  Deck.beamSlab num_of_girders girder_distance positions
    c.total_length_m c.width_m (3/10) c.depth_of_girder

/-- Embeds `make_box_girder_deck`: cell count and width from
`compute_box_girder_spacing` (which fails on a depth/width ratio above 1/5),
cells centered at `y = -((num_cells-1)*box_width/2) + box_width*i`. -/
def make_box_girder_deck (c : BridgeConfig) : Except Err Deck :=
  match compute_box_girder_spacing c.width_m c.depth_of_girder with
  | Except.error e => Except.error e
  | Except.ok nc =>
    let num_cells := nc.1
    let box_width := nc.2
    let positions := (List.range num_cells.toNat).map
      (fun i => -(((num_cells : ℚ) - 1) * box_width / 2) + box_width * (i : ℚ))
    Except.ok (Deck.boxGirder num_cells box_width positions
      c.total_length_m c.width_m c.depth_of_girder)

/-- Embeds `BridgeModel.make_deck` from
`src/BridgeModelGeneration/bridge_model.py`: dispatch on `bridge_type`, with
`raise ValueError(f"Invalid bridge type: ...")` (the spec's
`InvalidConfigurationError`) on anything unrecognized. -/
def make_deck (c : BridgeConfig) : Except Err Deck :=
  if c.bridge_type = "beam_slab" then Except.ok (make_beam_slab_deck c)
  else if c.bridge_type = "box_girder" then make_box_girder_deck c
  else Except.error (Err.invalidConfiguration ("Invalid bridge type: " ++ c.bridge_type))

/-- A stream that always draws 0, used to evaluate concrete sampler runs. -/
def zeroStream : Option ℤ → ℕ → ℚ := fun _ _ => 0

/-- A stream whose second draw makes the raw span 12.34 and whose fourth draw
makes `num_spans` 3; all draws lie in `[0,1)`. -/
def spanStream : Option ℤ → ℕ → ℚ :=
  fun _ i => if i = 1 then 17/300 else if i = 3 then 1/4 else 0

/-- The config produced by one all-zero-draw sample with bridge type
`beam_slab`: raw span 12, two spans, total length 26, two lanes, width 17. -/
def zeroConfig : BridgeConfig :=
  ⟨"bridge_1", "beam_slab", 12, 2, 26, 17, 2, true, 7/10, 1, 3/5,
    "multicolumn", "prismatic", "circular"⟩

theorem piers_combination_src (lanes : ℤ) (r : Rng) (bt : String) :
    ((piers_combination lanes r bt).2).src = r.src := by
  rw [piers_combination]
  split_ifs <;> rfl

/-- Facts about a successful `pick_span` draw: the stored span is the rounded
raw span, the stored total length is the rounding of
`raw * num_spans + 2 * overhang` for the same raw span, and with stream draws
in `[0,1)` the drawn `num_spans` lies in `[2, 5]`. -/
theorem pick_span_ok {bt : String} {overhang : ℚ} {r : Rng} {sp : ℚ × ℤ × ℚ × ℚ}
    {r2 : Rng} (h : pick_span bt overhang r = Except.ok (sp, r2))
    (hsrc : ∀ i, 0 ≤ r.src i ∧ r.src i < 1) :
    (∃ raw : ℚ, sp.1 = round1 raw ∧
      sp.2.2.1 = round1 (raw * ((sp.2.1 : ℤ) : ℚ) + 2 * overhang)) ∧
    2 ≤ sp.2.1 ∧ sp.2.1 ≤ 5 ∧ r2.src = r.src := by
  rw [pick_span] at h
  split at h
  · exact Except.noConfusion h
  · rename_i spec hl
    simp only [Rng.uniform, Rng.randint, Except.ok.injEq, Prod.mk.injEq] at h
    obtain ⟨hsp, hr2⟩ := h
    have hu := hsrc (r.ctr + 1 + 1)
    have hfl0 : (0:ℤ) ≤ ⌊r.src (r.ctr + 1 + 1) * (((5:ℤ) : ℚ) - ((2:ℤ) : ℚ) + 1)⌋ := by
      apply Int.floor_nonneg.mpr
      have h4 : (((5:ℤ) : ℚ) - ((2:ℤ) : ℚ) + 1) = 4 := by norm_num
      rw [h4]
      exact mul_nonneg hu.1 (by norm_num)
    have hfl4 : ⌊r.src (r.ctr + 1 + 1) * (((5:ℤ) : ℚ) - ((2:ℤ) : ℚ) + 1)⌋ < 4 := by
      apply Int.floor_lt.mpr
      have h4 : (((5:ℤ) : ℚ) - ((2:ℤ) : ℚ) + 1) = 4 := by norm_num
      rw [h4]
      push_cast
      linarith [hu.2]
    refine ⟨⟨spec.1.1 + (spec.1.2 - spec.1.1) * r.src r.ctr, ?_, ?_⟩, ?_, ?_, ?_⟩
    · rw [← hsp]
    · rw [← hsp]
    · rw [← hsp]; simp only; omega
    · rw [← hsp]; simp only; omega
    · rw [← hr2]

/-- Facts about a successful `sample_one` that need no assumption on the
stream: the config records `include_sidewalks = True`, its width is
`pick_deck_width` of its lanes with sidewalks, its stored span and total
length come from one raw span draw, and the stream function is unchanged. -/
theorem sample_rest_ok {btp : String} {overhang : ℚ} {idx : ℕ} {r : Rng}
    {cfg : BridgeConfig} {r2 : Rng}
    (h : sample_rest btp overhang idx r = Except.ok (cfg, r2))
    (hsrc : ∀ i, 0 ≤ r.src i ∧ r.src i < 1) :
    cfg.include_sidewalks = true ∧
    cfg.width_m = pick_deck_width cfg.lanes true ∧
    (∃ raw : ℚ, cfg.span_m = round1 raw ∧
      cfg.total_length_m = round1 (raw * ((cfg.num_spans : ℤ) : ℚ) + 2 * overhang)) ∧
    2 ≤ cfg.num_spans ∧ cfg.num_spans ≤ 5 ∧ r2.src = r.src := by
  simp only [sample_rest] at h
  split at h
  · exact Except.noConfusion h
  · rename_i sp r3 hps
    have hpick := pick_span_ok hps (fun i => hsrc i)
    simp only [Except.ok.injEq, Prod.mk.injEq] at h
    obtain ⟨hcfg, hr2⟩ := h
    obtain ⟨⟨raw, hraw1, hraw2⟩, hn2, hn5, hr3⟩ := hpick
    refine ⟨?_, ?_, ⟨raw, ?_, ?_⟩, ?_, ?_, ?_⟩
    · rw [← hcfg]
    · rw [← hcfg]
    · rw [← hcfg]; exact hraw1
    · rw [← hcfg]; exact hraw2
    · rw [← hcfg]; exact hn2
    · rw [← hcfg]; exact hn5
    · rw [← hr2, piers_combination_src, hr3]; rfl

/-- The `sample_one` facts, with the stream bound stated on the incoming
`Rng`; the optional leading `rng.choice` leaves the stream function
unchanged. -/
theorem sample_one_basic {bt : Option String} {overhang : ℚ} {idx : ℕ} {r : Rng}
    {cfg : BridgeConfig} {r2 : Rng}
    (h : sample_one bt overhang idx r = Except.ok (cfg, r2))
    (hsrc : ∀ i, 0 ≤ r.src i ∧ r.src i < 1) :
    cfg.include_sidewalks = true ∧
    cfg.width_m = pick_deck_width cfg.lanes true ∧
    (∃ raw : ℚ, cfg.span_m = round1 raw ∧
      cfg.total_length_m = round1 (raw * ((cfg.num_spans : ℤ) : ℚ) + 2 * overhang)) ∧
    2 ≤ cfg.num_spans ∧ cfg.num_spans ≤ 5 ∧ r2.src = r.src := by
  cases bt with
  | none =>
    simp only [sample_one] at h
    have hres := sample_rest_ok h (fun i => hsrc i)
    exact hres
  | some s =>
    simp only [sample_one] at h
    split_ifs at h with hcond
    · have hres := sample_rest_ok h (fun i => hsrc i)
      exact hres
    · have hres := sample_rest_ok h (fun i => hsrc i)
      exact hres

/-- Per-config facts for every config in a successful `sample_loop` run with
stream draws in `[0,1)`. -/
theorem sample_loop_mem {bt : Option String} {overhang : ℚ} :
    ∀ (k idx : ℕ) (r : Rng) (l : List BridgeConfig),
      (∀ i, 0 ≤ r.src i ∧ r.src i < 1) →
      sample_loop bt overhang k idx r = Except.ok l →
      ∀ cfg ∈ l,
        cfg.include_sidewalks = true ∧
        cfg.width_m = pick_deck_width cfg.lanes true ∧
        (∃ raw : ℚ, cfg.span_m = round1 raw ∧
          cfg.total_length_m = round1 (raw * ((cfg.num_spans : ℤ) : ℚ) + 2 * overhang)) ∧
        2 ≤ cfg.num_spans ∧ cfg.num_spans ≤ 5 := by
  intro k
  induction k with
  | zero =>
    intro idx r l hsrc h cfg hc
    simp only [sample_loop, Except.ok.injEq] at h
    rw [← h] at hc
    exact absurd hc (List.not_mem_nil cfg)
  | succ k ih =>
    intro idx r l hsrc h cfg hc
    simp only [sample_loop] at h
    split at h
    · exact Except.noConfusion h
    · rename_i c1 r2 hso
      split at h
      · exact Except.noConfusion h
      · rename_i rest hsl
        have hl : c1 :: rest = l := (Except.ok.injEq _ _).mp h
        have hfacts := sample_one_basic hso hsrc
        have hsrc2 : ∀ i, 0 ≤ r2.src i ∧ r2.src i < 1 := by
          intro i
          rw [hfacts.2.2.2.2.2]
          exact hsrc i
        rw [← hl] at hc
        rcases List.mem_cons.mp hc with heq | hmem
        · rw [← heq] at hfacts
          exact ⟨hfacts.1, hfacts.2.1, hfacts.2.2.1, hfacts.2.2.2.1, hfacts.2.2.2.2.1⟩
        · exact ih (idx + 1) r2 rest hsrc2 hsl cfg hmem

/-- C6: the sampler is deterministic. Its output is a pure function of
`(count, bridge_type, seed)`: two calls with identical arguments give
identical config lists, and the stream (hence the output) depends on the seed
alone, so replacing the stream family by one that agrees at the given seed
leaves the whole output unchanged. -/
theorem C6_sampler_deterministic :
    (∀ (mt : Option ℤ → ℕ → ℚ) (count : ℕ) (bt : Option String) (seed : Option ℤ)
       (l1 l2 : Except Err (List BridgeConfig)),
      generate_bridge_configs mt count bt seed = l1 →
      generate_bridge_configs mt count bt seed = l2 → l1 = l2) ∧
    (∀ (mt mt2 : Option ℤ → ℕ → ℚ) (count : ℕ) (bt : Option String) (seed : Option ℤ),
      (∀ i, mt seed i = mt2 seed i) →
      generate_bridge_configs mt count bt seed = generate_bridge_configs mt2 count bt seed) := by
  constructor
  · intro mt count bt seed l1 l2 h1 h2
    rw [← h1, ← h2]
  · intro mt mt2 count bt seed h
    have hf : mt seed = mt2 seed := funext h
    rw [generate_bridge_configs, generate_bridge_configs, hf]

/-- Witness for C6: two identical calls (count 5, no bridge type, seed 42)
agree. -/
theorem C6_sampler_deterministic_witness :
    generate_bridge_configs zeroStream 5 none (some 42) =
      generate_bridge_configs zeroStream 5 none (some 42) :=
  C6_sampler_deterministic.1 zeroStream 5 none (some 42)
    (generate_bridge_configs zeroStream 5 none (some 42))
    (generate_bridge_configs zeroStream 5 none (some 42)) rfl rfl

/-- C7 amended: the sampler stores `total_length_m = round(raw_span * num_spans
+ 2*overhang, 1)` for the unrounded drawn span, while `span_m` is the raw span
rounded separately; the claimed exact invariant holds only up to the rounding
slack `(num_spans + 1)/20` when stated with the stored `span_m`. -/
theorem C7_invariant_amended :
    ∀ (mt : Option ℤ → ℕ → ℚ) (count : ℕ) (bt : Option String) (seed : Option ℤ)
      (l : List BridgeConfig) (cfg : BridgeConfig),
      (∀ i, 0 ≤ mt seed i ∧ mt seed i < 1) →
      generate_bridge_configs mt count bt seed = Except.ok l → cfg ∈ l →
      |cfg.total_length_m - (cfg.span_m * ((cfg.num_spans : ℤ) : ℚ) + 2 * 1)| ≤
        (((cfg.num_spans : ℤ) : ℚ) + 1) / 20 := by
  intro mt count bt seed l cfg hsrc hgen hmem
  rw [generate_bridge_configs] at hgen
  have hfacts := sample_loop_mem count 1 ⟨mt seed, 0⟩ l (fun i => hsrc i) hgen cfg hmem
  obtain ⟨-, -, ⟨raw, hspan, htot⟩, hn2, -⟩ := hfacts
  have hn0 : (0:ℚ) ≤ ((cfg.num_spans : ℤ) : ℚ) := by
    exact_mod_cast le_trans (by norm_num : (0:ℤ) ≤ 2) hn2
  rw [htot, hspan]
  have h1 := abs_round1_sub (raw * ((cfg.num_spans : ℤ) : ℚ) + 2 * 1)
  have h2 := abs_round1_sub raw
  have hb : |((cfg.num_spans : ℤ) : ℚ) * (raw - round1 raw)| ≤
      ((cfg.num_spans : ℤ) : ℚ) * (1/20) := by
    rw [abs_mul, abs_of_nonneg hn0, abs_sub_comm]
    exact mul_le_mul_of_nonneg_left h2 hn0
  have hEq : round1 (raw * ((cfg.num_spans : ℤ) : ℚ) + 2 * 1) -
      (round1 raw * ((cfg.num_spans : ℤ) : ℚ) + 2 * 1) =
      (round1 (raw * ((cfg.num_spans : ℤ) : ℚ) + 2 * 1) -
        (raw * ((cfg.num_spans : ℤ) : ℚ) + 2 * 1)) +
      ((cfg.num_spans : ℤ) : ℚ) * (raw - round1 raw) := by ring
  rw [hEq]
  calc |(round1 (raw * ((cfg.num_spans : ℤ) : ℚ) + 2 * 1) -
        (raw * ((cfg.num_spans : ℤ) : ℚ) + 2 * 1)) +
      ((cfg.num_spans : ℤ) : ℚ) * (raw - round1 raw)|
      ≤ |round1 (raw * ((cfg.num_spans : ℤ) : ℚ) + 2 * 1) -
        (raw * ((cfg.num_spans : ℤ) : ℚ) + 2 * 1)| +
        |((cfg.num_spans : ℤ) : ℚ) * (raw - round1 raw)| := abs_add _ _
    _ ≤ 1/20 + ((cfg.num_spans : ℤ) : ℚ) * (1/20) := add_le_add h1 hb
    _ = (((cfg.num_spans : ℤ) : ℚ) + 1) / 20 := by ring

/-- Witness for the amended C7: the all-zero-draw run (raw span 12, 2 spans,
total 26) satisfies the rounding-slack bound. -/
theorem C7_invariant_amended_witness :
    |zeroConfig.total_length_m -
      (zeroConfig.span_m * ((zeroConfig.num_spans : ℤ) : ℚ) + 2 * 1)| ≤
      (((zeroConfig.num_spans : ℤ) : ℚ) + 1) / 20 :=
  C7_invariant_amended zeroStream 1 none none [zeroConfig] zeroConfig
    (fun i => by norm_num [zeroStream]) (by with_unfolding_all decide)
    (List.mem_singleton.mpr rfl)

/-- Counterexample to C7 as stated: a sampler run whose stream draws
(17/300, 1/4 and zeros, all in [0,1)) give raw span 12.34 and 3 spans produces
`span_m = 12.3`, `total_length_m = 39.0`, but
`span_m * num_spans + 2 * overhang = 38.9 ≠ 39.0`. -/
theorem C7_invariant_cex :
    generate_bridge_configs spanStream 1 (some "beam_slab") none =
      Except.ok [⟨"bridge_1", "beam_slab", 123/10, 3, 39, 17, 2, true, 7/10, 1, 3/5,
        "multicolumn", "prismatic", "circular"⟩] ∧
    ((39 : ℚ) ≠ 123/10 * ((3 : ℤ) : ℚ) + 2 * 1) := by
  constructor
  · with_unfolding_all decide
  · norm_num

/-- C8 amended: for every nonempty `bridge_type` outside {beam_slab,
box_girder}, sampling at least one config fails (the `BRIDGE_SPECS` lookup
raises; modelled as `InvalidConfigurationError`), and `make_deck` on a config
with an unrecognized `bridge_type` fails likewise; but the empty string, which
is also outside the supported set, is falsy in `bridge_type or rng.choice(...)`
and silently falls back to a random supported type. -/
theorem C8_unsupported_type_amended :
    (∀ (mt : Option ℤ → ℕ → ℚ) (count : ℕ) (bt : String) (seed : Option ℤ),
      bt ∉ ["beam_slab", "box_girder"] → bt ≠ "" → 1 ≤ count →
      ∃ msg, generate_bridge_configs mt count (some bt) seed =
        Except.error (Err.invalidConfiguration msg)) ∧
    (∀ cfg : BridgeConfig, cfg.bridge_type ∉ ["beam_slab", "box_girder"] →
      ∃ msg, make_deck cfg = Except.error (Err.invalidConfiguration msg)) := by
  constructor
  · intro mt count bt seed hnot hne hcount
    refine ⟨"KeyError: " ++ bt, ?_⟩
    obtain ⟨k, rfl⟩ : ∃ k, count = k + 1 := ⟨count - 1, by omega⟩
    have hb1 : bt ≠ "beam_slab" := fun hh => hnot (by rw [hh]; simp)
    have hb2 : bt ≠ "box_girder" := fun hh => hnot (by rw [hh]; simp)
    have hlk : BRIDGE_SPECS.lookup bt = none := by
      have e1 : (bt == "beam_slab") = false := beq_eq_false_iff_ne.mpr hb1
      have e2 : (bt == "box_girder") = false := beq_eq_false_iff_ne.mpr hb2
      simp [BRIDGE_SPECS, List.lookup, e1, e2]
    have hps : ∀ r : Rng, pick_span bt 1 r =
        Except.error (Err.invalidConfiguration ("KeyError: " ++ bt)) := by
      intro r
      rw [pick_span, hlk]
    have hso : ∀ (idx : ℕ) (r : Rng), sample_one (some bt) 1 idx r =
        Except.error (Err.invalidConfiguration ("KeyError: " ++ bt)) := by
      intro idx r
      simp only [sample_one]
      rw [if_neg hne]
      simp only [sample_rest, hps]
    rw [generate_bridge_configs]
    simp only [sample_loop, hso]
  · intro cfg hnot
    refine ⟨"Invalid bridge type: " ++ cfg.bridge_type, ?_⟩
    have hb1 : cfg.bridge_type ≠ "beam_slab" := fun hh => hnot (by rw [hh]; simp)
    have hb2 : cfg.bridge_type ≠ "box_girder" := fun hh => hnot (by rw [hh]; simp)
    rw [make_deck, if_neg hb1, if_neg hb2]

/-- Witness for the amended C8: the unsupported type "arch" makes both the
sampler and the deck dispatch fail. -/
theorem C8_unsupported_type_amended_witness :
    (∃ msg, generate_bridge_configs zeroStream 1 (some "arch") none =
      Except.error (Err.invalidConfiguration msg)) ∧
    (∃ msg, make_deck ⟨"bridge_x", "arch", 12, 2, 26, 17, 2, true, 7/10, 1, 3/5,
        "multicolumn", "prismatic", "circular"⟩ =
      Except.error (Err.invalidConfiguration msg)) :=
  ⟨C8_unsupported_type_amended.1 zeroStream 1 "arch" none (by simp) (by simp)
      (by norm_num),
   C8_unsupported_type_amended.2 ⟨"bridge_x", "arch", 12, 2, 26, 17, 2, true, 7/10, 1,
      3/5, "multicolumn", "prismatic", "circular"⟩ (by simp)⟩

/-- Counterexample to C8 as stated: the empty string is outside the supported
set, yet the sampler silently falls back to a randomly chosen supported type
and succeeds instead of failing. -/
theorem C8_unsupported_type_cex :
    ("" : String) ∉ ["beam_slab", "box_girder"] ∧
    generate_bridge_configs zeroStream 1 (some "") none = Except.ok [zeroConfig] := by
  constructor
  · simp
  · with_unfolding_all decide

/-- C10: the deck-width formula at 3 lanes without sidewalks is exactly
`3*3.5 + 2*(3.0 + 0.5) = 17.5` m, and every sampler-produced config stores
`width_m = pick_deck_width(lanes, include_sidewalks)` for its own drawn lanes
and sidewalk flag. -/
theorem C10_deck_width :
    pick_deck_width 3 false = 35/2 ∧
    (∀ (mt : Option ℤ → ℕ → ℚ) (count : ℕ) (bt : Option String) (seed : Option ℤ)
       (l : List BridgeConfig) (cfg : BridgeConfig),
      (∀ i, 0 ≤ mt seed i ∧ mt seed i < 1) →
      generate_bridge_configs mt count bt seed = Except.ok l → cfg ∈ l →
      cfg.width_m = pick_deck_width cfg.lanes cfg.include_sidewalks) := by
  constructor
  · with_unfolding_all decide
  · intro mt count bt seed l cfg hsrc hgen hmem
    rw [generate_bridge_configs] at hgen
    have hfacts := sample_loop_mem count 1 ⟨mt seed, 0⟩ l (fun i => hsrc i) hgen cfg hmem
    rw [hfacts.1]
    exact hfacts.2.1

/-- Witness for C10: the formula value 17.5 at (3, no sidewalks), and the
all-zero-draw sampler run, whose config has width
`pick_deck_width(2, True) = 17`. -/
theorem C10_deck_width_witness :
    pick_deck_width 3 false = 35/2 ∧
    zeroConfig.width_m = pick_deck_width zeroConfig.lanes zeroConfig.include_sidewalks :=
  ⟨C10_deck_width.1,
   C10_deck_width.2 zeroStream 1 none none [zeroConfig] zeroConfig
     (fun i => by norm_num [zeroStream]) (by with_unfolding_all decide)
     (List.mem_singleton.mpr rfl)⟩
